import Mathlib

/-!
Shallow embedding of the FASTME file-sharing server (`src/app.py`): the room
registry (`rooms` dict), the code generator (`generate_code`), the HTTP
handlers (`upload_file`, `download_file`) and the WebSocket control-channel
handler (`websocket`), together with theorems settling the specification
claims about them.
-/

set_option autoImplicit false

namespace Fastme

/-- Room codes are short strings (`generate_code` draws uppercase letters and digits). -/
abbrev Code := String

/-- Payload bytes (`file.read()`), modelled as a list of byte values. -/
abbrev Bytes := List Nat

/-- A WebSocket connection is identified by an id; the server only stores and
compares such references (`ws`, `rooms[code]['sender']`, ...). -/
abbrev Chan := Nat

/-- The role a connection acquires (`my_role` in `websocket`): `'sender'` or `'receiver'`. -/
inductive Role where
  | sender
  | receiver
deriving DecidableEq

/-- One entry of the `rooms` dict:
`{'sender': ws, 'receiver': ws, 'filename': name, 'file_data': data}`,
where each field may be `None`. -/
structure Room where
  sender : Option Chan
  receiver : Option Chan
  filename : Option String
  file_data : Option Bytes
deriving DecidableEq

/-- The global `rooms` dict, modelled as an association list keyed by code. -/
abbrev Registry := List (Code × Room)

/-- Dict lookup `rooms[code]` / membership `code in rooms`. -/
def findRoom : Registry → Code → Option Room
  | [], _ => none
  | (c, room) :: rest, code => if c = code then some room else findRoom rest code

/-- Dict deletion `del rooms[code]` (no-op when the key is absent). -/
def eraseRoom : Registry → Code → Registry
  | [], _ => []
  | (c, room) :: rest, code =>
      if c = code then eraseRoom rest code else (c, room) :: eraseRoom rest code

/-- Dict assignment `rooms[code] = room` (inserts or replaces the entry). -/
def insertRoom (r : Registry) (code : Code) (room : Room) : Registry :=
  (code, room) :: eraseRoom r code

/-- A server-to-client control message, one constructor per `json.dumps` literal
the server sends. -/
inductive ServerMsg where
  | codeGenerated (code : Code)
  | receiverJoined
  | watingForFile
  | fileReady (filename : String) (filesize : Nat)
  | errorMsg (message : String)
deriving DecidableEq

/-- The literal `'type'` field of each message as spelled in `app.py`
(note the server spells the join acknowledgement `'wating_for_file'`). -/
def ServerMsg.typeStr : ServerMsg → String
  | .codeGenerated _ => "code_generated"
  | .receiverJoined => "receiver_joined"
  | .watingForFile => "wating_for_file"
  | .fileReady _ _ => "file_ready"
  | .errorMsg _ => "error"

/-- A `send` performed by the server: target channel and message. -/
abbrev Send := Chan × ServerMsg

/-- The retry loop of `generate_code`, with the successive draws of
`random.choices(...)` factored out as the explicit candidate list `cands`.
The loop returns the first candidate whose code is not a key of `rooms`
(`if code not in rooms: return code`); `none` means the `while True` loop is
still running after consuming every listed candidate — the source has no
retry cap and no failure branch, so on an all-colliding draw sequence it
never returns. -/
def generate_code : Registry → List Code → Option Code
  | _, [] => none
  | rooms, c :: rest =>
      if (findRoom rooms c).isSome then generate_code rooms rest else some c

/-- The request data `upload_file` reads: `request.form.get('code')` and
`request.files['file']` (original filename plus content bytes); `none` models
a missing field. -/
structure UploadRequest where
  code : Option String
  file : Option (String × Bytes)

/-- HTTP result of `upload_file`: a 200 or a 400 with the literal body. -/
inductive UploadResponse where
  | ok200 (body : String)
  | err400 (body : String)
deriving DecidableEq

/-- Whether an upload response is the success status. -/
def UploadResponse.isOk : UploadResponse → Bool
  | .ok200 _ => true
  | .err400 _ => false

/-- What a call to `upload_file` produces: the `rooms` dict afterwards, the
WebSocket pushes it performed, and the HTTP response. -/
structure UploadOutcome where
  rooms : Registry
  sends : List Send
  resp : UploadResponse
deriving DecidableEq

/-- The `POST /upload` handler `upload_file`, line for line:
reject when the file part or the code is missing, the code is falsy (`not code`,
i.e. the empty string) or unknown; reject an empty filename; otherwise store
`filename`/`file_data` into the room, then notify the receiver and return 200
if one is bound, else return 400. The code is used verbatim (no `.upper()`),
and the payload is stored before the receiver check. -/
def upload_file (rooms : Registry) (req : UploadRequest) : UploadOutcome :=
  match req.code, req.file with
  | some code, some (filename, fileData) =>
      if code = "" then ⟨rooms, [], .err400 "Invalid request"⟩
      else
        match findRoom rooms code with
        | none => ⟨rooms, [], .err400 "Invalid request"⟩
        | some room =>
            if filename = "" then ⟨rooms, [], .err400 "No selected file"⟩
            else
              let room' : Room :=
                { room with filename := some filename, file_data := some fileData }
              let rooms' := insertRoom rooms code room'
              match room.receiver with
              | some rc =>
                  ⟨rooms', [(rc, .fileReady filename fileData.length)],
                    .ok200 "File uploaded and receiver notified."⟩
              | none => ⟨rooms', [], .err400 "Receiver not connected."⟩
  | _, _ => ⟨rooms, [], .err400 "Invalid request"⟩

/-- HTTP result of `download_file`: a 400, a 404 (with literal bodies), or
`send_file` of the stored bytes with `download_name = room['filename']`. -/
inductive DownloadResponse where
  | err400 (body : String)
  | err404 (body : String)
  | sendFile (download_name : Option String) (data : Bytes)
deriving DecidableEq

/-- What a call to `download_file` produces: the `rooms` dict afterwards
(the handler performs no mutation, which the definition makes explicit) and
the HTTP response. -/
structure DownloadOutcome where
  rooms : Registry
  resp : DownloadResponse
deriving DecidableEq

/-- The `GET /download` handler `download_file`: reject a missing, falsy or
unknown code (`request.args.get('code')`, used verbatim, no `.upper()`);
serve the stored bytes when `file_data` is not `None`, else a 404. -/
def download_file (rooms : Registry) (codeArg : Option String) : DownloadOutcome :=
  match codeArg with
  | none => ⟨rooms, .err400 "Invalid download link."⟩
  | some code =>
      if code = "" then ⟨rooms, .err400 "Invalid download link."⟩
      else
        match findRoom rooms code with
        | none => ⟨rooms, .err400 "Invalid download link."⟩
        | some room =>
            match room.file_data with
            | some data => ⟨rooms, .sendFile room.filename data⟩
            | none => ⟨rooms, .err404 "File not found or link expired."⟩

/-- Model of Python's `str.upper()` as used on room codes
(`message.get('code', '').upper()`): uppercase each character. Written
structurally over the character list so the kernel can evaluate it. -/
def pyUpper (s : String) : String := String.mk (s.data.map Char.toUpper)

/-- A parsed client control message, as `websocket` dispatches on
`message.get('type')`. `registerSender` carries the code that its call to
`generate_code` returned (the randomness factored out as an input; freshness
of that code is the generator's property, proved separately). `other` is any
JSON object whose type matches no branch — the loop falls through and
continues. -/
inductive ClientMsg where
  | registerSender (gen : Code)
  | registerReceiver (code : String)
  | other
deriving DecidableEq

/-- One item received by `ws.receive()`: a falsy frame (`if not data: continue`),
a frame on which `json.loads`/`.get` raises (`malformed`), or a parsed message. -/
inductive Incoming where
  | empty
  | malformed
  | parsed (m : ClientMsg)
deriving DecidableEq

/-- The per-connection handler state: the locals `my_code` and `my_role`, the
shared `rooms` dict, and the accumulated sends to any channel. -/
structure WsState where
  my_code : Option Code
  my_role : Option Role
  rooms : Registry
  sent : List Send
deriving DecidableEq

/-- The handler state of a connection that has just been accepted. -/
def initState (rooms : Registry) : WsState :=
  { my_code := none, my_role := none, rooms := rooms, sent := [] }

/-- The fresh room a `register_sender` message creates:
`{'sender': ws, 'receiver': None, 'filename': None, 'file_data': None}`. -/
def newRoom (self : Chan) : Room :=
  { sender := some self, receiver := none, filename := none, file_data := none }

/-- One iteration of the `while True` receive loop of `websocket`, for the
connection `self`. `none` models an exception escaping the iteration
(`json.loads` on a malformed frame), which aborts the loop; `json.loads` is
the first statement, so the state is unchanged at that point.

`register_sender` stores a fresh room under the generated code and echoes
`code_generated`. `register_receiver` uppercases the submitted code; if the
room exists with a free receiver slot it binds, pushes `receiver_joined` to
the sender when present, and acknowledges with the (misspelled) message
`wating_for_file`; otherwise it answers
`error 'Invalid or expired code.'` and leaves `my_code`/`my_role` alone. -/
def wsStep (self : Chan) (st : WsState) : Incoming → Option WsState
  | .empty => some st
  | .malformed => none
  | .parsed .other => some st
  | .parsed (.registerSender gen) =>
      some { st with
        my_role := some .sender
        my_code := some gen
        rooms := insertRoom st.rooms gen (newRoom self)
        sent := st.sent ++ [(self, .codeGenerated gen)] }
  | .parsed (.registerReceiver raw) =>
      let code := pyUpper raw
      match findRoom st.rooms code with
      | some room =>
          if room.receiver.isNone then
            let joined : List Send :=
              match room.sender with
              | some s => [(s, .receiverJoined)]
              | none => []
            some { st with
              my_role := some .receiver
              my_code := some code
              rooms := insertRoom st.rooms code { room with receiver := some self }
              sent := st.sent ++ joined ++ [(self, .watingForFile)] }
          else
            some { st with sent := st.sent ++ [(self, .errorMsg "Invalid or expired code.")] }
      | none =>
          some { st with sent := st.sent ++ [(self, .errorMsg "Invalid or expired code.")] }

/-- The receive loop run over a list of incoming frames; it stops at the first
frame whose processing raises (the remaining frames are never read), and also
ends when the connection closes (end of the list). -/
def wsLoop (self : Chan) (st : WsState) : List Incoming → WsState
  | [] => st
  | inc :: rest =>
      match wsStep self st inc with
      | none => st
      | some st' => wsLoop self st' rest

/-- The `finally` cleanup block of `websocket`: if the connection had bound a
code that is still a live room, push a best-effort disconnect error to the
counterpart (receiver when `my_role == 'sender'`, `elif` sender when
`my_role == 'receiver'`) and delete the room. Otherwise do nothing. -/
def wsCleanup (st : WsState) : WsState :=
  match st.my_code with
  | none => st
  | some c =>
      match findRoom st.rooms c with
      | none => st
      | some room =>
          let notif : List Send :=
            if st.my_role = some .sender then
              match room.receiver with
              | some rc => [(rc, .errorMsg "Sender disconnected.")]
              | none => []
            else if st.my_role = some .receiver then
              match room.sender with
              | some s => [(s, .errorMsg "Receiver disconnected.")]
              | none => []
            else []
          { st with rooms := eraseRoom st.rooms c, sent := st.sent ++ notif }

/-- A whole `websocket` connection: the receive loop (up to an exception or
the connection closing) followed by the `finally` cleanup. -/
def wsHandler (self : Chan) (st : WsState) (msgs : List Incoming) : WsState :=
  wsCleanup (wsLoop self st msgs)

/-- Spec-side success condition for `POST /upload`, written from the amended
wording of claim C2 (to be compared with `upload_file`): the room exists (the
code is present and non-falsy), a receiver is bound, and the submitted
filename is non-empty — the byte content may be empty. -/
def uploadAccepts (rooms : Registry) (req : UploadRequest) : Bool :=
  match req.code, req.file with
  | some c, some (name, _) =>
      decide (c ≠ "") &&
        (match findRoom rooms c with
         | some room => room.receiver.isSome && decide (name ≠ "")
         | none => false)
  | _, _ => false

/-- Number of `file_ready` notifications among a list of sends. -/
def countFileReady (sends : List Send) : Nat :=
  (sends.filter fun p => p.2.typeStr == "file_ready").length

/-- Concrete room with no receiver bound and an earlier payload stored. -/
def demoRoomNoReceiver : Room :=
  { sender := some 0, receiver := none, filename := some "old.txt", file_data := some [1] }

/-- Concrete registry holding `demoRoomNoReceiver` under code `"AB12C"`. -/
def demoRegNoReceiver : Registry := [("AB12C", demoRoomNoReceiver)]

/-- Concrete room with a receiver bound and no payload yet. -/
def demoRoomBound : Room :=
  { sender := some 0, receiver := some 1, filename := none, file_data := none }

/-- Concrete registry holding `demoRoomBound` under code `"AB12C"`. -/
def demoRegBound : Registry := [("AB12C", demoRoomBound)]

/-- Concrete registry with payload stored, for the case-sensitivity claims. -/
def demoRegStored : Registry :=
  [("AB12C",
    { sender := some 0, receiver := some 1, filename := some "a.txt", file_data := some [37] })]

/-- Concrete registry whose sole room is `"AAAAA"`, for the generator claims. -/
def demoRegGen : Registry := [("AAAAA", newRoom 0)]

/-- Concrete handler state of a connection bound as sender to `"AB12C"` whose
room has a receiver. -/
def demoStSender : WsState :=
  { my_code := some "AB12C", my_role := some .sender, rooms := demoRegBound, sent := [] }

/-- Concrete handler state of a fresh connection whose registry has the free
room `"AB12C"` with sender channel 7. -/
def demoStJoin : WsState := initState [("AB12C", newRoom 7)]

@[simp] theorem findRoom_insert_self (r : Registry) (c : Code) (room : Room) :
    findRoom (insertRoom r c room) c = some room := by
  simp [insertRoom, findRoom]

theorem findRoom_erase_self (r : Registry) (c : Code) :
    findRoom (eraseRoom r c) c = none := by
  induction r with
  | nil => rfl
  | cons p rest ih =>
      obtain ⟨c', room⟩ := p
      by_cases h : c' = c <;> simp [eraseRoom, findRoom, h, ih]

theorem findRoom_erase_ne (r : Registry) (c c' : Code) (h : c' ≠ c) :
    findRoom (eraseRoom r c) c' = findRoom r c' := by
  induction r with
  | nil => rfl
  | cons p rest ih =>
      obtain ⟨k, room⟩ := p
      by_cases hk : k = c
      · subst hk
        simp [eraseRoom, findRoom, Ne.symm h, ih]
      · by_cases hk' : k = c'
        · subst hk'
          simp [eraseRoom, findRoom, hk, h]
        · simp [eraseRoom, findRoom, hk, hk', ih]

theorem findRoom_insert_ne (r : Registry) (c c' : Code) (room : Room) (h : c' ≠ c) :
    findRoom (insertRoom r c room) c' = findRoom r c' := by
  simp [insertRoom, findRoom, Ne.symm h, findRoom_erase_ne r c c' h]

@[simp] theorem download_file_rooms (r : Registry) (a : Option String) :
    (download_file r a).rooms = r := by
  cases a with
  | none => rfl
  | some code =>
      by_cases h : code = ""
      · simp [download_file, h]
      · cases hf : findRoom r code with
        | none => simp [download_file, h, hf]
        | some room =>
            cases hd : room.file_data <;> simp [download_file, h, hf, hd]

/-- When a code is absent from the registry, `download_file` answers the
unknown-link client error. -/
theorem download_file_notFound (r : Registry) (c : Code) (h : findRoom r c = none) :
    (download_file r (some c)).resp = .err400 "Invalid download link." := by
  by_cases hc : c = "" <;> simp [download_file, hc, h]

/-- C1, amended: an upload on a live room with no bound receiver fails with a
client error (`Receiver not connected.`, the `NoReceiver` case) and sends no
notification, but — contrary to the claim — the submitted filename and bytes
have already been stored into the room, overwriting `payload_name` and
`payload_bytes`; other rooms are untouched. -/
theorem C1_upload_no_receiver_stores (rooms : Registry) (c : Code) (name : String)
    (data : Bytes) (room : Room)
    (hfind : findRoom rooms c = some room) (hrc : room.receiver = none)
    (hc : c ≠ "") (hname : name ≠ "") :
    (upload_file rooms ⟨some c, some (name, data)⟩).resp = .err400 "Receiver not connected." ∧
    (upload_file rooms ⟨some c, some (name, data)⟩).sends = [] ∧
    findRoom (upload_file rooms ⟨some c, some (name, data)⟩).rooms c
      = some { room with filename := some name, file_data := some data } ∧
    ∀ c', c' ≠ c →
      findRoom (upload_file rooms ⟨some c, some (name, data)⟩).rooms c' = findRoom rooms c' := by
  refine ⟨?_, ?_, ?_, ?_⟩ <;>
    simp [upload_file, hc, hfind, hname, hrc, findRoom_insert_self]
  intro c' hne
  simp [upload_file, hc, hfind, hname, hrc, findRoom_insert_ne rooms c c' _ hne]

/-- C1, counterexample to the claim as stated: on a room with no receiver the
upload does fail, but the room's stored `payload_name` changes from
`old.txt` to `new.txt` across the failed call — the Registry state is not
left unchanged. -/
theorem C1_counterexample :
    (upload_file demoRegNoReceiver ⟨some "AB12C", some ("new.txt", [2, 3])⟩).resp
      = .err400 "Receiver not connected." ∧
    (findRoom (upload_file demoRegNoReceiver
        ⟨some "AB12C", some ("new.txt", [2, 3])⟩).rooms "AB12C").map Room.filename
      = some (some "new.txt") ∧
    (findRoom demoRegNoReceiver "AB12C").map Room.filename = some (some "old.txt") := by
  decide

/-- C1, witness: the amended theorem applied to the concrete one-room registry. -/
theorem C1_witness :
    findRoom demoRegNoReceiver "AB12C" = some demoRoomNoReceiver ∧
    (upload_file demoRegNoReceiver ⟨some "AB12C", some ("new.txt", [2, 3])⟩).resp
      = .err400 "Receiver not connected." ∧
    findRoom (upload_file demoRegNoReceiver
        ⟨some "AB12C", some ("new.txt", [2, 3])⟩).rooms "AB12C"
      = some { demoRoomNoReceiver with filename := some "new.txt", file_data := some [2, 3] } :=
  have h := C1_upload_no_receiver_stores demoRegNoReceiver "AB12C" "new.txt" [2, 3]
    demoRoomNoReceiver (by decide) (by decide) (by decide) (by decide)
  ⟨by decide, h.1, h.2.2.1⟩

/-- C2, amended: `POST /upload` succeeds exactly when the room exists (code
present and non-falsy), a receiver is bound, and the submitted *filename* is
non-empty — the byte content is never checked, so a named empty file is
accepted; exactly one `file_ready` notification goes out on success and none
otherwise. -/
theorem C2_upload_success_iff (rooms : Registry) (req : UploadRequest) :
    (upload_file rooms req).resp.isOk = uploadAccepts rooms req ∧
    countFileReady (upload_file rooms req).sends
      = (if uploadAccepts rooms req then 1 else 0) := by
  obtain ⟨code, file⟩ := req
  match code, file with
  | none, _ =>
      simp [upload_file, uploadAccepts, UploadResponse.isOk, countFileReady]
  | some c, none =>
      simp [upload_file, uploadAccepts, UploadResponse.isOk, countFileReady]
  | some c, some (name, data) =>
      by_cases hc : c = ""
      · simp [upload_file, uploadAccepts, UploadResponse.isOk, countFileReady, hc]
      · cases hfind : findRoom rooms c with
        | none => simp [upload_file, uploadAccepts, UploadResponse.isOk, countFileReady, hc, hfind]
        | some room =>
            by_cases hname : name = ""
            · simp [upload_file, uploadAccepts, UploadResponse.isOk, countFileReady, hc, hfind,
                hname]
            · cases hrc : room.receiver with
              | none =>
                  simp [upload_file, uploadAccepts, UploadResponse.isOk, countFileReady, hc,
                    hfind, hname, hrc]
              | some rc =>
                  simp [upload_file, uploadAccepts, UploadResponse.isOk, countFileReady, hc,
                    hfind, hname, hrc, ServerMsg.typeStr]

/-- C2, counterexample to the claim as stated: a named but empty file on a room
with a bound receiver is accepted with HTTP 200 and a `file_ready`
notification (filesize 0) is pushed, where the claim demands a client error
and no notification. -/
theorem C2_counterexample :
    (upload_file demoRegBound ⟨some "AB12C", some ("report.pdf", [])⟩).resp
      = .ok200 "File uploaded and receiver notified." ∧
    (upload_file demoRegBound ⟨some "AB12C", some ("report.pdf", [])⟩).sends
      = [(1, .fileReady "report.pdf" 0)] := by
  decide

/-- C3: when a connection bound to a room (as sender or receiver) closes or
errors, the cleanup removes that room, a later `GET /download` with its code
fails as unknown, and the surviving counterpart — a bound receiver when the
sender disconnects, a bound sender when the receiver disconnects — is pushed
a best-effort disconnect error. -/
theorem C3_disconnect_teardown (st : WsState) (c : Code) (hc : st.my_code = some c) :
    findRoom (wsCleanup st).rooms c = none ∧
    (download_file (wsCleanup st).rooms (some c)).resp = .err400 "Invalid download link." ∧
    (∀ room rc, findRoom st.rooms c = some room → st.my_role = some .sender →
      room.receiver = some rc → (rc, .errorMsg "Sender disconnected.") ∈ (wsCleanup st).sent) ∧
    (∀ room s, findRoom st.rooms c = some room → st.my_role = some .receiver →
      room.sender = some s → (s, .errorMsg "Receiver disconnected.") ∈ (wsCleanup st).sent) := by
  have h1 : findRoom (wsCleanup st).rooms c = none := by
    cases hfind : findRoom st.rooms c with
    | none => simp [wsCleanup, hc, hfind]
    | some room => simp [wsCleanup, hc, hfind, findRoom_erase_self]
  refine ⟨h1, download_file_notFound _ _ h1, ?_, ?_⟩
  · intro room rc hfind hrole hrc
    simp [wsCleanup, hc, hfind, hrole, hrc]
  · intro room s hfind hrole hs
    simp [wsCleanup, hc, hfind, hrole, hs]

/-- C3, witness: a sender bound to the concrete room `"AB12C"` with receiver
channel 1 disconnects — the room is gone, downloads fail, the receiver got
the disconnect error. -/
theorem C3_witness :
    demoStSender.my_code = some "AB12C" ∧
    findRoom (wsCleanup demoStSender).rooms "AB12C" = none ∧
    (download_file (wsCleanup demoStSender).rooms (some "AB12C")).resp
      = .err400 "Invalid download link." ∧
    (1, .errorMsg "Sender disconnected.") ∈ (wsCleanup demoStSender).sent :=
  have h := C3_disconnect_teardown demoStSender "AB12C" (by decide)
  ⟨by decide, h.1, h.2.1,
    h.2.2.1 demoRoomBound 1 (by decide) (by decide) (by decide)⟩

/-- C4: after a successful upload of `(name, data)` into a room with a bound
receiver, downloading with that room's code returns exactly the stored bytes
with the stored filename; the download leaves the registry untouched, so an
immediately repeated download returns the same result. -/
theorem C4_roundtrip (rooms : Registry) (c : Code) (name : String) (data : Bytes)
    (room : Room) (hfind : findRoom rooms c = some room)
    (hrc : room.receiver.isSome = true) (hc : c ≠ "") (hname : name ≠ "") :
    (upload_file rooms ⟨some c, some (name, data)⟩).resp.isOk = true ∧
    (download_file (upload_file rooms ⟨some c, some (name, data)⟩).rooms (some c)).resp
      = .sendFile (some name) data ∧
    (download_file (upload_file rooms ⟨some c, some (name, data)⟩).rooms (some c)).rooms
      = (upload_file rooms ⟨some c, some (name, data)⟩).rooms ∧
    (download_file
        (download_file (upload_file rooms ⟨some c, some (name, data)⟩).rooms (some c)).rooms
        (some c)).resp
      = (download_file (upload_file rooms ⟨some c, some (name, data)⟩).rooms (some c)).resp := by
  obtain ⟨rc, hrc'⟩ := Option.isSome_iff_exists.mp hrc
  refine ⟨?_, ?_, by simp, by simp⟩
  · simp [upload_file, hc, hfind, hname, hrc', UploadResponse.isOk]
  · simp [upload_file, hc, hfind, hname, hrc', download_file, findRoom_insert_self]

/-- C4, witness: the round trip on the concrete room `"AB12C"` with a bound
receiver, uploading `report.pdf` with bytes `[80, 68, 70]`. -/
theorem C4_witness :
    findRoom demoRegBound "AB12C" = some demoRoomBound ∧
    (upload_file demoRegBound ⟨some "AB12C", some ("report.pdf", [80, 68, 70])⟩).resp.isOk
      = true ∧
    (download_file (upload_file demoRegBound
        ⟨some "AB12C", some ("report.pdf", [80, 68, 70])⟩).rooms (some "AB12C")).resp
      = .sendFile (some "report.pdf") [80, 68, 70] :=
  have h := C4_roundtrip demoRegBound "AB12C" "report.pdf" [80, 68, 70] demoRoomBound
    (by decide) (by decide) (by decide) (by decide)
  ⟨by decide, h.1, h.2.1⟩

/-- C5, counterexample to the claim as stated: with the live room `"AB12C"`
(payload stored, receiver bound), `GET /download` and `POST /upload` given the
lowercase code `"ab12c"` both fail as unknown, while the uppercase code is
served — the HTTP boundary operations do not canonicalize case. -/
theorem C5_counterexample :
    (download_file demoRegStored (some "ab12c")).resp = .err400 "Invalid download link." ∧
    (download_file demoRegStored (some "AB12C")).resp = .sendFile (some "a.txt") [37] ∧
    (upload_file demoRegStored ⟨some "ab12c", some ("b.txt", [1])⟩).resp
      = .err400 "Invalid request" := by
  decide

/-- C5, amended: only the receiver join canonicalizes the submitted code to
uppercase before the registry lookup (binding at `pyUpper raw`); `POST /upload`
and `GET /download` use the submitted code verbatim, so any code that is not
literally a registry key fails there regardless of its letter case. -/
theorem C5_case_handling (self : Chan) (st : WsState) (raw : String) (room : Room)
    (rooms : Registry) (c : Code) (f : String × Bytes)
    (hjoin : findRoom st.rooms (pyUpper raw) = some room) (hfree : room.receiver = none)
    (hc : c ≠ "") (hmiss : findRoom rooms c = none) :
    (wsStep self st (.parsed (.registerReceiver raw))).map WsState.my_code
      = some (some (pyUpper raw)) ∧
    (upload_file rooms ⟨some c, some f⟩).resp = .err400 "Invalid request" ∧
    (download_file rooms (some c)).resp = .err400 "Invalid download link." := by
  refine ⟨?_, ?_, download_file_notFound _ _ hmiss⟩
  · simp [wsStep, hjoin, hfree]
  · obtain ⟨name, data⟩ := f
    simp [upload_file, hc, hmiss]

/-- C5, witness: joining with lowercase `"ab12c"` binds the uppercase room,
while upload and download with `"ab12c"` fail against the registry keyed by
`"AB12C"`. -/
theorem C5_witness :
    (wsStep 3 demoStJoin (.parsed (.registerReceiver "ab12c"))).map WsState.my_code
      = some (some (pyUpper "ab12c")) ∧
    (upload_file demoRegStored ⟨some "ab12c", some ("b.txt", [1])⟩).resp
      = .err400 "Invalid request" ∧
    (download_file demoRegStored (some "ab12c")).resp = .err400 "Invalid download link." :=
  C5_case_handling 3 demoStJoin "ab12c" (newRoom 7) demoRegStored "ab12c" ("b.txt", [1])
    (by decide) (by decide) (by decide) (by decide)

/-- On a candidate stream that collides forever with the live room `"AAAAA"`,
the generator loop is still running after any number of attempts. -/
theorem generate_code_all_collide (B : Nat) :
    generate_code demoRegGen (List.replicate B "AAAAA") = none := by
  induction B with
  | zero => rfl
  | succ n ih => simpa [List.replicate, generate_code, findRoom, demoRegGen] using ih

/-- C6, counterexample to the claim as stated: there is no bound on the number
of retries after which `generate_code` has produced an answer — on the
pathological draw sequence that always collides with the live room, it has
returned nothing (and in particular no `CodeSpaceExhausted` failure, which
does not exist in the code) after any number of attempts. -/
theorem C6_counterexample :
    ¬ ∃ B : Nat, generate_code demoRegGen (List.replicate B "AAAAA") ≠ none := by
  rintro ⟨B, h⟩
  exact h (generate_code_all_collide B)

/-- C6, amended: `generate_code` retries with no cap and no failure mode — it
returns the first drawn candidate that is not a live room code (hence always
a fresh code), terminating exactly when the draw sequence contains a fresh
candidate; when every draw collides it never returns, rather than failing the
request with `CodeSpaceExhausted`. -/
theorem C6_generator_unbounded (rooms : Registry) (cands : List Code) :
    (∀ c, generate_code rooms cands = some c → (findRoom rooms c).isSome = false) ∧
    ((∃ c ∈ cands, (findRoom rooms c).isSome = false) →
      (generate_code rooms cands).isSome = true) := by
  induction cands with
  | nil => simp [generate_code]
  | cons c rest ih =>
      by_cases h : (findRoom rooms c).isSome
      · refine ⟨?_, ?_⟩
        · intro c' hc'
          rw [generate_code, if_pos h] at hc'
          exact ih.1 c' hc'
        · rintro ⟨d, hd, hfree⟩
          rw [generate_code, if_pos h]
          rcases List.mem_cons.mp hd with rfl | hd'
          · exact absurd h (by simp [hfree])
          · exact ih.2 ⟨d, hd', hfree⟩
      · refine ⟨?_, ?_⟩
        · intro c' hc'
          rw [generate_code, if_neg h] at hc'
          cases hc'
          simpa using h
        · intro _
          rw [generate_code, if_neg h]
          rfl

/-- C6, witness: on the concrete registry `{"AAAAA"}`, a draw sequence whose
second candidate is fresh makes the generator return, and whatever it returns
is not a live key. -/
theorem C6_witness :
    (∃ c ∈ ["AAAAA", "BBBBB"], (findRoom demoRegGen c).isSome = false) ∧
    (generate_code demoRegGen ["AAAAA", "BBBBB"]).isSome = true :=
  ⟨⟨"BBBBB", by decide, by decide⟩,
    (C6_generator_unbounded demoRegGen ["AAAAA", "BBBBB"]).2 ⟨"BBBBB", by decide, by decide⟩⟩

/-- C7: a `register_receiver` with a code whose uppercased form is not a live
room, or whose room already has a receiver, answers the explicit error message
and changes nothing else — `my_code`/`my_role`/`rooms` keep their values, so
the connection stays unbound and may retry; with a live room whose receiver
slot is free, the bind succeeds: the connection becomes the receiver of that
room. -/
theorem C7_bind_receiver (self : Chan) (st : WsState) (raw : String) :
    (findRoom st.rooms (pyUpper raw) = none →
      wsStep self st (.parsed (.registerReceiver raw))
        = some { st with sent := st.sent ++ [(self, .errorMsg "Invalid or expired code.")] }) ∧
    (∀ room, findRoom st.rooms (pyUpper raw) = some room → room.receiver.isSome = true →
      wsStep self st (.parsed (.registerReceiver raw))
        = some { st with sent := st.sent ++ [(self, .errorMsg "Invalid or expired code.")] }) ∧
    (∀ room, findRoom st.rooms (pyUpper raw) = some room → room.receiver = none →
      (wsStep self st (.parsed (.registerReceiver raw))).map WsState.my_code
        = some (some (pyUpper raw)) ∧
      (wsStep self st (.parsed (.registerReceiver raw))).map WsState.my_role
        = some (some .receiver) ∧
      (wsStep self st (.parsed (.registerReceiver raw))).map
          (fun s => findRoom s.rooms (pyUpper raw))
        = some (some { room with receiver := some self })) := by
  refine ⟨?_, ?_, ?_⟩
  · intro hmiss
    simp [wsStep, hmiss]
  · intro room hfind hocc
    have : room.receiver.isNone = false := by
      cases hr : room.receiver <;> simp_all
    simp [wsStep, hfind, this]
  · intro room hfind hfree
    simp [wsStep, hfind, hfree, findRoom_insert_self]

/-- C7, witness: joining the occupied room `"AB12C"` fails with the error
message and leaves the state otherwise unchanged; joining the free room
`"AB12C"` of `demoStJoin` succeeds and binds. -/
theorem C7_witness :
    findRoom demoStSender.rooms (pyUpper "ZZZZZ") = none ∧
    wsStep 5 demoStSender (.parsed (.registerReceiver "ZZZZZ"))
      = some { demoStSender with
          sent := demoStSender.sent ++ [(5, .errorMsg "Invalid or expired code.")] } ∧
    wsStep 5 demoStSender (.parsed (.registerReceiver "ab12c"))
      = some { demoStSender with
          sent := demoStSender.sent ++ [(5, .errorMsg "Invalid or expired code.")] } ∧
    (wsStep 3 demoStJoin (.parsed (.registerReceiver "ab12c"))).map WsState.my_code
      = some (some (pyUpper "ab12c")) :=
  ⟨by decide,
    (C7_bind_receiver 5 demoStSender "ZZZZZ").1 (by decide),
    (C7_bind_receiver 5 demoStSender "ab12c").2.1 demoRoomBound (by decide) (by decide),
    ((C7_bind_receiver 3 demoStJoin "ab12c").2.2 (newRoom 7) (by decide) (by decide)).1⟩

/-- C8, counterexample to the claim as stated: on a concrete successful bind
the sender is pushed `receiver_joined`, but the acknowledgement sent to the
receiver carries the literal type string `wating_for_file`, which is not the
`waiting_for_file` message declared in the external interface schema. -/
theorem C8_counterexample :
    ((wsStep 3 demoStJoin (.parsed (.registerReceiver "AB12C"))).map
        (fun s => s.sent.map (fun p => (p.1, p.2.typeStr))))
      = some [(7, "receiver_joined"), (3, "wating_for_file")] ∧
    "wating_for_file" ≠ "waiting_for_file" := by
  decide

/-- C8, amended: on every successful receiver bind the bound sender's channel
is pushed `receiver_joined` and the receiver's channel is then sent the
acknowledgement whose wire type string is `wating_for_file` — the code's
spelling (matched by its own client), not the schema's `waiting_for_file`. -/
theorem C8_join_notifications (self : Chan) (st : WsState) (raw : String) (room : Room)
    (s : Chan) (hfind : findRoom st.rooms (pyUpper raw) = some room)
    (hfree : room.receiver = none) (hs : room.sender = some s) :
    wsStep self st (.parsed (.registerReceiver raw))
      = some { st with
          my_role := some .receiver
          my_code := some (pyUpper raw)
          rooms := insertRoom st.rooms (pyUpper raw) { room with receiver := some self }
          sent := st.sent ++ [(s, .receiverJoined), (self, .watingForFile)] } ∧
    ServerMsg.typeStr .watingForFile = "wating_for_file" := by
  refine ⟨?_, rfl⟩
  simp [wsStep, hfind, hfree, hs]

/-- C8, witness: the amended theorem at the concrete free room `"AB12C"` with
sender channel 7 and joining channel 3. -/
theorem C8_witness :
    findRoom demoStJoin.rooms (pyUpper "AB12C") = some (newRoom 7) ∧
    wsStep 3 demoStJoin (.parsed (.registerReceiver "AB12C"))
      = some { demoStJoin with
          my_role := some .receiver
          my_code := some (pyUpper "AB12C")
          rooms := insertRoom demoStJoin.rooms (pyUpper "AB12C")
            { newRoom 7 with receiver := some 3 }
          sent := demoStJoin.sent ++ [(7, .receiverJoined), (3, .watingForFile)] } :=
  ⟨by decide,
    (C8_join_notifications 3 demoStJoin "AB12C" (newRoom 7) 7
      (by decide) (by decide) (by decide)).1⟩

/-- C9, counterexample to the claim as stated: a connection registers as
sender for `"AAAAA"`, then receives one unparseable frame followed by another
`register_sender`. If malformed frames were ignored, the room `"AAAAA"` would
survive and `"BBBBB"` would exist with `my_code = "BBBBB"`. Instead the
unparseable frame aborts the loop (the third frame is never processed) and
the cleanup tears the room down: the registry ends empty with
`my_code = "AAAAA"`. -/
theorem C9_counterexample :
    (wsHandler 0 (initState []) [.parsed (.registerSender "AAAAA"), .malformed,
        .parsed (.registerSender "BBBBB")]).rooms = [] ∧
    (wsHandler 0 (initState []) [.parsed (.registerSender "AAAAA"), .malformed,
        .parsed (.registerSender "BBBBB")]).my_code = some "AAAAA" := by
  decide

/-- C9, amended: an unparseable frame is fatal — `json.loads` raises, the
receive loop stops at once (subsequent frames are never processed) and the
ordinary disconnect cleanup runs, tearing down the connection's room if one is
bound; only falsy frames and well-formed messages with an unrecognized type
are ignored without affecting the connection. -/
theorem C9_malformed_fatal (self : Chan) (st : WsState) (rest : List Incoming) :
    wsLoop self st (.malformed :: rest) = st ∧
    wsHandler self st (.malformed :: rest) = wsCleanup st ∧
    wsStep self st .empty = some st ∧
    wsStep self st (.parsed .other) = some st :=
  ⟨rfl, rfl, rfl, rfl⟩

/-- C10: the disconnect cleanup touches at most the single room named by the
connection's current `my_code` — with no binding it is a no-op, and every room
under a different code is looked up unchanged afterwards. Consequently a
connection that sent `register_sender` twice only tears down its second room:
the first room it created is still present (with its empty fresh state) after
the disconnect. -/
theorem C10_cleanup_frame (st : WsState) (self : Chan) (r0 : Registry) (g1 g2 : Code) :
    (st.my_code = none → wsCleanup st = st) ∧
    (∀ mc c, st.my_code = some mc → c ≠ mc →
      findRoom (wsCleanup st).rooms c = findRoom st.rooms c) ∧
    (g1 ≠ g2 →
      findRoom (wsHandler self (initState r0)
          [.parsed (.registerSender g1), .parsed (.registerSender g2)]).rooms g1
        = some (newRoom self)) := by
  refine ⟨?_, ?_, ?_⟩
  · intro h
    simp [wsCleanup, h]
  · intro mc c hmc hne
    cases hfind : findRoom st.rooms mc with
    | none => simp [wsCleanup, hmc, hfind]
    | some room => simp [wsCleanup, hmc, hfind, findRoom_erase_ne _ _ _ hne]
  · intro hne
    have h2 : findRoom (insertRoom (insertRoom r0 g1 (newRoom self)) g2 (newRoom self)) g1
        = some (newRoom self) := by
      rw [findRoom_insert_ne _ _ _ _ hne, findRoom_insert_self]
    simp [wsHandler, wsLoop, wsStep, initState, wsCleanup, findRoom_insert_self, newRoom,
      findRoom_erase_ne _ _ _ hne]
    simpa [newRoom] using h2

/-- C10, witness: a sender bound to `"CCCCC"` disconnects — the unrelated room
`"DDDDD"` is unaffected — and a connection that registered `"AAAAA"` then
`"BBBBB"` leaves `"AAAAA"` in the registry after disconnecting. -/
theorem C10_witness :
    findRoom (wsCleanup
        { my_code := some "CCCCC", my_role := some .sender,
          rooms := [("CCCCC", newRoom 4), ("DDDDD", newRoom 9)], sent := [] }).rooms "DDDDD"
      = findRoom [("CCCCC", newRoom 4), ("DDDDD", newRoom 9)] "DDDDD" ∧
    findRoom (wsHandler 0 (initState [])
        [.parsed (.registerSender "AAAAA"), .parsed (.registerSender "BBBBB")]).rooms "AAAAA"
      = some (newRoom 0) :=
  ⟨(C10_cleanup_frame
        { my_code := some "CCCCC", my_role := some .sender,
          rooms := [("CCCCC", newRoom 4), ("DDDDD", newRoom 9)], sent := [] }
        0 [] "AAAAA" "BBBBB").2.1 "CCCCC" "DDDDD" rfl (by decide),
    (C10_cleanup_frame (initState []) 0 [] "AAAAA" "BBBBB").2.2 (by decide)⟩

end Fastme
